import Mathlib

/-!
The mongrel2 listener (src/listener.c).

A shallow embedding of the connection handler of `src/listener.c`:
the delivery encoding (`Listener_deliver`), the three responders
(`Listener_process_flash_socket`, `Listener_process_json`,
`Listener_process_http`), the parse step and the connection loop
(`Listener_task`).

Conventions of the embedding.

* A C string is the list of its byte codes without the final `\0`
  (`cstr`), so `strlen` is `List.length`.
* Every call the code makes to a collaborator is recorded, in order, as an
  `Event`; a function of the embedding returns its C result together with
  the events it produced (and the listener, when it changes it).
* The results of the collaborators (socket functions, parser, host
  matcher, registration service, handler, proxy, directory) are not in
  `listener.c`; they are taken as parameters, gathered in `Env`.  A run of
  the loop is driven by one `Env` per iteration, so every call may answer
  differently from the previous one.
* `debug`, `log_err` and the messages of `check` only log and are left
  out; `check(c, ...)` is `if c then continue else goto error`.
-/

namespace Mongrel2

/-- A C string: its bytes up to, and without, the terminating zero. -/
abbrev CString := List Nat

/-- Byte codes of an ASCII literal. -/
def cstr (s : String) : CString := s.toList.map Char.toNat

/-- C `strlen`. -/
def strlen (s : CString) : Nat := s.length

/-! ## Literals (listener.c, lines 15-25) -/

def FLASH_RESPONSE : CString :=
  cstr "<?xml version=\"1.0\"?><!DOCTYPE cross-domain-policy SYSTEM \"http://www.macromedia.com/xml/dtds/cross-domain-policy.dtd\"> <cross-domain-policy> <allow-access-from domain=\"*\" to-ports=\"*\" /></cross-domain-policy>"

def HTTP_404 : CString :=
  cstr "HTTP/1.1 404 Not Found\r\n" ++
  cstr "Content-Type: text/plain\r\n" ++
  cstr "Connection: close\r\n" ++
  cstr "Content-Length: 9\r\n" ++
  cstr "Server: Mongrel2\r\n\r\nNot Found"

def PING_PATTERN : CString :=
  cstr "@[a-z/]- \x7b\"type\":%s*\"ping\"\x7d"

/-! ## Data model -/

/-- Tag of a backend (`found->type`).  The three enumerators the code
names, and `unknown` for any other value of the tag, which the `default:`
branch of the switch receives. -/
inductive BackendType where
  | BACKEND_HANDLER
  | BACKEND_DIR
  | BACKEND_PROXY
  | unknown (id : Nat)
  deriving DecidableEq, Repr

/-- A routing target.  `target` stands for the pointer stored in the union
`found->target` (handler, proxy or dir). -/
structure Backend where
  type : BackendType
  target : Nat
  deriving DecidableEq, Repr

/-- The fields of the request parser that `listener.c` reads.  `PATH` is
what `Request_get(parser, "PATH")` returns (`none` for `NULL`). -/
structure Request where
  socket_started : Bool
  json_sent : Bool
  body_start : Nat
  PATH : Option CString
  deriving DecidableEq, Repr

/-- The server context: `default_host` is `none` for a `NULL` pointer. -/
structure Server where
  default_host : Option Nat
  deriving DecidableEq, Repr

/-- One accepted connection (`Listener` of listener.h, as used here). -/
structure Listener where
  server : Server
  fd : Int
  rport : Int
  remote : CString
  buf : List Nat
  nread : Int
  nparsed : Nat
  parser : Request
  registered : Bool
  deriving DecidableEq, Repr

/-- Calls made to collaborators, in the order the code makes them.  The
events `Listener_process_flash_socket`, `Listener_process_json` and
`Listener_process_http` record the call of the loop to the function of
that name, that is how the message was classified. -/
inductive Event where
  | Listener_read_func (fd : Int) (len : Int)
  | Listener_write_func (fd : Int) (data : List Nat) (len : Int)
  | fdwrite (fd : Int) (data : List Nat) (len : Nat)
  | close (fd : Int)
  | Register_connect (fd : Int)
  | Register_ping (fd : Int)
  | Register_disconnect (fd : Int)
  | Request_start
  | Request_parse (data : List Nat) (len : Int)
  | Request_dump
  | Host_match (host : Option Nat) (path : CString) (len : Nat)
  | Handler_deliver (send_socket : Nat) (fd : Int) (data : List Nat) (len : Int)
  | Proxy_connect (proxy : Nat) (fd : Int) (data : List Nat) (size : Nat) (len : Int)
  | Dir_serve_file (dir : Nat) (path : CString) (fd : Int)
  | taskname (name : CString)
  | taskstate (state : CString)
  | Listener_process_flash_socket
  | Listener_process_json
  | Listener_process_http
  | Listener_destroy
  deriving DecidableEq, Repr

/-- Answer of one call to `Request_start` followed by `Request_parse`: the
return value, the count of parsed bytes and the state the parser is left
in. -/
structure ParseAnswer where
  finished : Int
  nparsed : Nat
  parser : Request

/-- What the collaborators answer during one iteration of the connection
loop.  None of these functions is defined in `listener.c`. -/
structure Env where
  /-- Result of `Listener_read_func(fd, buf, len)`: count and bytes stored. -/
  Listener_read_func : Int → Int → Int × List Nat
  /-- Result of `Listener_write_func(fd, data, len)`. -/
  Listener_write_func : Int → List Nat → Int → Int
  /-- Whether `calloc(n, 1)` returns a buffer. -/
  calloc : Nat → Bool
  /-- Outcome of `Request_start` and `Request_parse` on `(buf, nread)`. -/
  Request_parse : List Nat → Int → ParseAnswer
  /-- Whether `pattern_match(buf, len, pattern)` finds a match. -/
  pattern_match : List Nat → Nat → CString → Bool
  /-- Result of `Register_ping(fd)`; zero means the keepalive failed. -/
  Register_ping : Int → Int
  /-- Result of `Host_match(host, path, len)`. -/
  Host_match : Option Nat → CString → Nat → Option Backend
  /-- Result of `Handler_deliver(send_socket, fd, buf, nread)`. -/
  Handler_deliver : Nat → Int → List Nat → Int → Int
  /-- Result of `Proxy_connect(proxy, fd, buf, size, nread)`. -/
  Proxy_connect : Nat → Int → List Nat → Nat → Int → Int
  /-- Result of `Dir_serve_file(dir, path, fd)`. -/
  Dir_serve_file : Nat → CString → Int → Int

/-! ## Lifecycle (listener.c, lines 55-75) -/

/-- `Listener_create`: `none` for `NULL`.  `calloc` zeroes the structure, so
`buf`, `nread`, `nparsed` and `registered` start at zero; the answers of
`calloc` and `Request_create` and the constants `BUFFER_SIZE` (capacity of
`buf`) and `IPADDR_SIZE` of listener.h are parameters. -/
def Listener_create (BUFFER_SIZE IPADDR_SIZE : Nat) (calloc_ok : Bool)
    (Request_create : Option Request) (srv : Server) (fd rport : Int) (remote : CString) :
    Option Listener :=
  if calloc_ok then
    match Request_create with
    | some parser =>
      some { server := srv, fd := fd, rport := rport, remote := remote.take IPADDR_SIZE,
             buf := List.replicate BUFFER_SIZE 0, nread := 0, nparsed := 0,
             parser := parser, registered := false }
    | none => none
  else none

/-! ## Flash responder (listener.c, lines 208-216) -/

/-- `Listener_process_flash_socket`: one write of the policy document and
its terminator; `check(rc > 0, ...)`. -/
def Listener_process_flash_socket (env : Env) (l : Listener) : Int × List Event :=
  let len : Int := (strlen FLASH_RESPONSE : Int) + 1
  let rc := env.Listener_write_func l.fd (FLASH_RESPONSE ++ [0]) len
  let ev := [Event.Listener_write_func l.fd (FLASH_RESPONSE ++ [0]) len]
  if rc > 0 then (0, ev) else (-1, ev)

/-! ## Path matching and HTTP dispatch (listener.c, lines 149-206) -/

/-- `Listener_match_path`: the backend found, the value stored in
`*out_path`, and the events. -/
def Listener_match_path (env : Env) (l : Listener) :
    Option Backend × Option CString × List Event :=
  match l.parser.PATH with
  | none => (none, none, [])
  | some path =>
    (env.Host_match l.server.default_host path (strlen path), some path,
      [Event.Host_match l.server.default_host path (strlen path)])

/-- `Listener_process_http`, with `BUFFER_SIZE` of listener.h as a
parameter. -/
def Listener_process_http (BUFFER_SIZE : Nat) (env : Env) (l : Listener) :
    Int × List Event :=
  match l.server.default_host with
  | none => (-1, [])
  | some _ =>
    let m := Listener_match_path env l
    let ev := [Event.taskname (cstr "Listener_task")] ++ m.2.2
    match m.2.1 with
    | none => (-1, ev)
    | some path =>
      match m.1 with
      | some found =>
        match found.type with
        | BackendType.BACKEND_PROXY =>
          (env.Proxy_connect found.target l.fd l.buf BUFFER_SIZE l.nread,
            ev ++ [Event.taskstate (cstr "proxying"),
                   Event.Proxy_connect found.target l.fd l.buf BUFFER_SIZE l.nread])
        | BackendType.BACKEND_HANDLER =>
          (-1, ev ++ [Event.taskstate (cstr "error")])
        | BackendType.BACKEND_DIR =>
          (env.Dir_serve_file found.target path l.fd,
            ev ++ [Event.taskstate (cstr "sending"),
                   Event.Dir_serve_file found.target path l.fd])
        | BackendType.unknown _ => (-1, ev)
      | none =>
        (-1, ev ++ [Event.taskstate (cstr "404"),
                    Event.fdwrite l.fd HTTP_404 (strlen HTTP_404),
                    Event.taskstate (cstr "closing"),
                    Event.close l.fd])

/-! ## JSON socket messages (listener.c, lines 117-147) -/

/-- `Listener_process_json`: result, listener afterwards, events.  The
result of `Handler_deliver` is only logged. -/
def Listener_process_json (env : Env) (l : Listener) : Int × Listener × List Event :=
  match l.server.default_host with
  | none => (-1, l, [])
  | some _ =>
    let l1 : Listener := if l.registered then l else { l with registered := true }
    let ev1 : List Event := if l.registered then [] else [Event.Register_connect l.fd]
    if env.pattern_match l1.buf l1.parser.body_start PING_PATTERN then
      if env.Register_ping l1.fd = 0 then
        (0, l1, ev1 ++ [Event.Register_ping l1.fd, Event.Register_disconnect l1.fd])
      else
        (0, l1, ev1 ++ [Event.Register_ping l1.fd])
    else
      let m := Listener_match_path env l1
      match m.1 with
      | none => (-1, l1, ev1 ++ m.2.2)
      | some found =>
        if found.type = BackendType.BACKEND_HANDLER then
          (0, l1, ev1 ++ m.2.2 ++
            [Event.Handler_deliver found.target l1.fd l1.buf l1.nread])
        else
          (-1, l1, ev1 ++ m.2.2)

/-! ## Delivery encoding (listener.c, lines 86-113) -/

/-- The 64 digits of base64. -/
def b64_alphabet : CString :=
  cstr "ABCDEFGHIJKLMNOPQRSTUVWXYZabcdefghijklmnopqrstuvwxyz0123456789+/"

/-- Character code of the base64 digit `i`. -/
def b64_char (i : Nat) : Nat := b64_alphabet.getD i 0

/-- Value of a base64 digit, the inverse of `b64_char`. -/
def b64_index (c : Nat) : Nat := b64_alphabet.indexOf c

/-- Base64 text of a byte string: three bytes give four digits, and a last
group of one or two bytes is completed with `=` (code 61). -/
def b64_encode_chars : List Nat → List Nat
  | [] => []
  | [a] => [b64_char (a / 4), b64_char (a % 4 * 16), 61, 61]
  | [a, b] =>
    [b64_char (a / 4), b64_char (a % 4 * 16 + b / 16), b64_char (b % 16 * 4), 61]
  | a :: b :: c :: rest =>
    b64_char (a / 4) :: b64_char (a % 4 * 16 + b / 16) ::
      b64_char (b % 16 * 4 + c / 64) :: b64_char (c % 64) :: b64_encode_chars rest

/-- Modelled from the spec: `b64_encode` (b64/b64.h) is not under src/.
The spec names it as the base64 codec that turns the payload into text
within a given capacity; it is modelled as standard padded base64 of the
first `srcSize` bytes of `src`.  The result is the count of characters
written and the characters; when they do not fit in `destLen`, the
library's answer is the count 0 with nothing written. -/
def b64_encode (src : List Nat) (srcSize : Nat) (destLen : Nat) : Nat × List Nat :=
  let total := (srcSize + 2) / 3 * 4
  if destLen < total then (0, []) else (total, b64_encode_chars (src.take srcSize))

/-- Modelled from the spec: the base64 decoder is not under src/ (and
`listener.c` never calls it); it is the standard inverse of the encoding,
used to state the round trip of a delivered message. -/
def b64_decode_chars : List Nat → List Nat
  | c0 :: c1 :: c2 :: c3 :: rest =>
    if c2 = 61 then
      [b64_index c0 * 4 + b64_index c1 / 16]
    else if c3 = 61 then
      [b64_index c0 * 4 + b64_index c1 / 16,
       b64_index c1 % 16 * 16 + b64_index c2 / 4]
    else
      (b64_index c0 * 4 + b64_index c1 / 16) ::
      (b64_index c1 % 16 * 16 + b64_index c2 / 4) ::
      (b64_index c2 % 4 * 64 + b64_index c3) :: b64_decode_chars rest
  | _ => []

/-- The `len` bytes a caller hands to `Listener_deliver`. -/
def payload (buffer : Int → Nat) (len : Nat) : List Nat :=
  (List.range len).map (fun (i : Nat) => buffer (i : Int))

/-- `Listener_deliver`.  `buffer` gives the byte at each offset from the
pointer; `len - 1` is computed in `size_t`, so for `len = 0` the second
check reads the byte just before the pointer (offset `-1`).
`BUFFER_SIZE * 1.5` is `BUFFER_SIZE * 3 / 2` once converted to `size_t`.
The comparison `rc == b64_len+1` is made in `size_t`. -/
def Listener_deliver (BUFFER_SIZE : Nat) (env : Env) (to_fd : Int)
    (buffer : Int → Nat) (len : Nat) : Int × List Event :=
  if buffer (len : Int) ≠ 0 then (-1, [])
  else if buffer ((len : Int) - 1) = 0 then (-1, [])
  else if env.calloc (BUFFER_SIZE * 3 / 2) = false then (-1, [])
  else
    let r := b64_encode (payload buffer len) len (BUFFER_SIZE * 3 / 2 - 1)
    let b64_len := r.1
    if b64_len > 0 then
      let b64_buf :=
        (r.2 ++ List.replicate (BUFFER_SIZE * 3 / 2 - r.2.length) 0).set b64_len 0
      let n : Int := (b64_len : Int) + 1
      let rc := env.Listener_write_func to_fd (b64_buf.take (b64_len + 1)) n
      let ev := [Event.Listener_write_func to_fd (b64_buf.take (b64_len + 1)) n]
      if rc % 18446744073709551616 = n % 18446744073709551616 then (0, ev) else (-1, ev)
    else (-1, [])

/-! ## Parse step and connection loop (listener.c, lines 218-274) -/

/-- `Listener_parse`: result, listener afterwards, events. -/
def Listener_parse (env : Env) (l : Listener) : Int × Listener × List Event :=
  let a := env.Request_parse l.buf l.nread
  let l1 : Listener := { l with parser := a.parser, nparsed := a.nparsed }
  let ev := [Event.Request_start, Event.Request_parse l.buf l.nread]
  if a.finished = 1 then (0, l1, ev) else (-1, l1, ev)

/-- The listener after the read of the loop condition (line 241): the
bytes received replace the start of `buf` and the count is stored in
`nread`. -/
def Listener_read (BUFFER_SIZE : Nat) (env : Env) (l : Listener) : Listener :=
  let r := env.Listener_read_func l.fd ((BUFFER_SIZE : Int) - 1)
  { l with nread := r.1, buf := r.2 ++ l.buf.drop r.2.length }

/-- The listener a message is parsed from: after the read and the store of
the terminator `buf[nread] = 0` (line 242). -/
def Listener_filled (BUFFER_SIZE : Nat) (env : Env) (l : Listener) : Listener :=
  let l0 := Listener_read BUFFER_SIZE env l
  { l0 with buf := l0.buf.set l0.nread.toNat 0 }

/-- Outcome of one evaluation of the loop condition and, when the read gave
bytes, of the loop body: the events, the listener, and whether control
returns to the loop condition (`again`) or leaves the loop. -/
structure Pass where
  events : List Event
  listener : Listener
  again : Bool

/-- One pass of the `while` loop of `Listener_task` (lines 241-266). -/
def Listener_pass (BUFFER_SIZE : Nat) (env : Env) (l : Listener) : Pass :=
  let evR := [Event.Listener_read_func l.fd ((BUFFER_SIZE : Int) - 1)]
  let l0 := Listener_read BUFFER_SIZE env l
  if l0.nread > 0 then
    let p := Listener_parse env (Listener_filled BUFFER_SIZE env l)
    let evP := evR ++ p.2.2 ++ [Event.Request_dump]
    if p.1 = 0 then
      if p.2.1.parser.socket_started then
        let f := Listener_process_flash_socket env p.2.1
        ⟨evP ++ [Event.Listener_process_flash_socket] ++ f.2, p.2.1, false⟩
      else if p.2.1.parser.json_sent then
        let j := Listener_process_json env p.2.1
        ⟨evP ++ [Event.Listener_process_json] ++ j.2.2, j.2.1, decide (j.1 = 0)⟩
      else
        let h := Listener_process_http BUFFER_SIZE env p.2.1
        ⟨evP ++ [Event.Listener_process_http] ++ h.2, p.2.1, false⟩
    else ⟨evP, p.2.1, false⟩
  else ⟨evR, l0, false⟩

/-- The code after the `error:` label (lines 268-273). -/
def Listener_teardown (l : Listener) : List Event :=
  (if l.parser.json_sent then [Event.Register_disconnect l.fd] else []) ++
    [Event.Listener_destroy]

/-- `Listener_task`: the events of a whole connection and the listener as
it is when the loop is left.  The script gives the answers of the
collaborators for each pass in turn; when it is exhausted the peer has
closed the connection and the read returns 0. -/
def Listener_task (BUFFER_SIZE : Nat) (l : Listener) : List Env → List Event × Listener
  | [] =>
    let l0 : Listener := { l with nread := 0 }
    (Event.Listener_read_func l.fd ((BUFFER_SIZE : Int) - 1) :: Listener_teardown l0, l0)
  | env :: rest =>
    let p := Listener_pass BUFFER_SIZE env l
    if p.again then
      let r := Listener_task BUFFER_SIZE p.listener rest
      (p.events ++ r.1, r.2)
    else
      (p.events ++ Listener_teardown p.listener, p.listener)

/-! ## Observations on a list of events -/

/-- A call to `Register_connect`. -/
def Event.isConnect : Event → Bool
  | Event.Register_connect _ => true
  | _ => false

/-- A call to `Register_ping`. -/
def Event.isPing : Event → Bool
  | Event.Register_ping _ => true
  | _ => false

/-- A call to `Register_disconnect`. -/
def Event.isDisconnect : Event → Bool
  | Event.Register_disconnect _ => true
  | _ => false

/-- A backend lookup (`Host_match`). -/
def Event.isLookup : Event → Bool
  | Event.Host_match _ _ _ => true
  | _ => false

/-- A call to `Handler_deliver`. -/
def Event.isDeliver : Event → Bool
  | Event.Handler_deliver _ _ _ _ => true
  | _ => false

/-- A handoff to the proxy or to the file server. -/
def Event.isHandoff : Event → Bool
  | Event.Proxy_connect _ _ _ _ _ => true
  | Event.Dir_serve_file _ _ _ => true
  | _ => false

/-- Bytes sent to the connection, through `Listener_write_func` or
`fdwrite`. -/
def Event.isWrite : Event → Bool
  | Event.Listener_write_func _ _ _ => true
  | Event.fdwrite _ _ _ => true
  | _ => false

/-- A call to `close`. -/
def Event.isClose : Event → Bool
  | Event.close _ => true
  | _ => false

/-- A call to `Listener_read_func`. -/
def Event.isRead : Event → Bool
  | Event.Listener_read_func _ _ => true
  | _ => false

/-- A call to `Listener_destroy`. -/
def Event.isDestroy : Event → Bool
  | Event.Listener_destroy => true
  | _ => false

/-! ## Concrete inputs

Listeners, buffers and collaborators on which the statements below are
evaluated. -/

/-- The listener that `Listener_create` gives for descriptor 7 of a server
with a default host. -/
def freshListener : Listener :=
  { server := { default_host := some 1 }, fd := 7, rport := 4000,
    remote := cstr "127.0.0.1", buf := List.replicate 2048 0, nread := 0, nparsed := 0,
    parser := { socket_started := false, json_sent := false, body_start := 0, PATH := none },
    registered := false }

/-- Collaborators that accept every write in full, find no backend, and
see the end of the stream on every read. -/
def quietEnv : Env :=
  { Listener_read_func := fun _ _ => (0, [])
    Listener_write_func := fun _ _ n => n
    calloc := fun _ => true
    Request_parse := fun _ _ =>
      { finished := 1, nparsed := 0,
        parser := { socket_started := false, json_sent := false, body_start := 0, PATH := none } }
    pattern_match := fun _ _ _ => false
    Register_ping := fun _ => 1
    Host_match := fun _ _ _ => none
    Handler_deliver := fun _ _ _ _ => 0
    Proxy_connect := fun _ _ _ _ _ => 0
    Dir_serve_file := fun _ _ _ => 0 }

/-- As `quietEnv`, but every write stores a single byte. -/
def shortWriteEnv : Env :=
  { quietEnv with Listener_write_func := fun _ _ _ => 1 }

/-- A listener whose parsed request asks for the path `/missing`. -/
def missingListener : Listener :=
  { freshListener with
    parser := { socket_started := false, json_sent := false, body_start := 0,
                PATH := some (cstr "/missing") } }

/-- As `quietEnv`, but the host matcher answers with a handler backend. -/
def handlerEnv : Env :=
  { quietEnv with
    Host_match := fun _ _ _ => some { type := BackendType.BACKEND_HANDLER, target := 3 } }

/-- As `handlerEnv`, but `Handler_deliver` reports failure. -/
def deliverFailEnv : Env :=
  { handlerEnv with Handler_deliver := fun _ _ _ _ => -1 }

/-- As `quietEnv`, but every payload matches the ping pattern. -/
def pingEnv : Env :=
  { quietEnv with pattern_match := fun _ _ _ => true }

/-- A listener holding a parsed JSON socket message for the path
`@chat`, not yet registered. -/
def jsonListener : Listener :=
  { freshListener with
    buf := cstr "@chat \x7b\"type\":\"msg\"\x7d" ++ [0], nread := 20,
    parser := { socket_started := false, json_sent := true, body_start := 20,
                PATH := some (cstr "@chat") } }

/-- As `pingEnv`, but the keepalive reports failure. -/
def pingFailEnv : Env :=
  { pingEnv with Register_ping := fun _ => 0 }

/-- The buffer `a \0 b \0`: read with length 3 it has its terminator at
offset 3 and another one at offset 1. -/
def earlyTerminatorBuffer : Int → Nat :=
  fun i => if i = 0 then 97 else if i = 2 then 98 else 0

/-- The buffer `a b c d`, without a terminator at offset 3. -/
def unterminatedBuffer : Int → Nat :=
  fun i => if i = 0 then 97 else if i = 1 then 98 else if i = 2 then 99 else 100

/-- An empty message: the terminator is at offset 0, every other byte,
also the one before the buffer, is `A`. -/
def emptyMessageBuffer : Int → Nat :=
  fun i => if i = 0 then 0 else 65

/-- A message of 2304 bytes `A` and its terminator: its base64 text has
3072 characters. -/
def longMessageBuffer : Int → Nat :=
  fun i => if 0 ≤ i ∧ i < 2304 then 65 else 0

/-- As `quietEnv`, but no memory can be allocated. -/
def noMemoryEnv : Env :=
  { quietEnv with calloc := fun _ => false }

/-- The buffer `M a n \0`. -/
def manBuffer : Int → Nat :=
  fun i => if i = 0 then 77 else if i = 1 then 97 else if i = 2 then 110 else 0

/-- One pass in which the peer sends a JSON socket message that is not a
ping and whose path `@chat` leads to a Handler backend. -/
def jsonMsgEnv : Env :=
  { handlerEnv with
    Listener_read_func := fun _ _ => (20, cstr "@chat \x7b\"type\":\"msg\"\x7d")
    Request_parse := fun _ _ =>
      { finished := 1, nparsed := 20,
        parser := { socket_started := false, json_sent := true, body_start := 20,
                    PATH := some (cstr "@chat") } } }

/-- One pass in which the peer sends a flash policy probe; the parser
raises both of its signals. -/
def flashMsgEnv : Env :=
  { quietEnv with
    Listener_read_func := fun _ _ => (23, cstr "<policy-file-request/>" ++ [0])
    Request_parse := fun _ _ =>
      { finished := 1, nparsed := 23,
        parser := { socket_started := true, json_sent := true, body_start := 0,
                    PATH := none } } }

/-- The collaborators present, whatever the arguments of the calls, a
complete JSON socket message that is not a ping and whose PATH the host
matcher maps to a Handler backend. -/
def Env.nonPingJson (e : Env) : Prop :=
  (∀ fd n, (e.Listener_read_func fd n).1 > 0) ∧
  (∀ buf n, (e.Request_parse buf n).finished = 1 ∧
    (e.Request_parse buf n).parser.socket_started = false ∧
    (e.Request_parse buf n).parser.json_sent = true ∧
    (e.Request_parse buf n).parser.PATH ≠ none) ∧
  (∀ buf n p, e.pattern_match buf n p = false) ∧
  (∀ h p n, ∃ b, e.Host_match h p n = some b ∧ b.type = BackendType.BACKEND_HANDLER)

/-! # Statements -/

/-! ## Flash responder -/

/-- C7, counterexample: when the write function stores one byte of the 210
asked for, `Listener_process_flash_socket` still returns success. -/
theorem Listener_process_flash_socket_short_write :
    shortWriteEnv.Listener_write_func freshListener.fd (FLASH_RESPONSE ++ [0])
        ((strlen FLASH_RESPONSE : Int) + 1) = 1 ∧
      (1 : Int) ≠ (strlen FLASH_RESPONSE : Int) + 1 ∧
      (Listener_process_flash_socket shortWriteEnv freshListener).1 = 0 := by
  set_option maxRecDepth 100000 in decide

/-- C7, as amended: `Listener_process_flash_socket` asks the write function
for the policy document plus one terminator byte, `strlen(FLASH_RESPONSE) + 1`
bytes, and returns success exactly when the write function reports a
positive count, failure exactly when it reports zero or less. -/
theorem Listener_process_flash_socket_result (env : Env) (l : Listener) :
    (Listener_process_flash_socket env l).2 =
        [Event.Listener_write_func l.fd (FLASH_RESPONSE ++ [0])
          ((strlen FLASH_RESPONSE : Int) + 1)] ∧
      ((Listener_process_flash_socket env l).1 = 0 ↔
        env.Listener_write_func l.fd (FLASH_RESPONSE ++ [0])
          ((strlen FLASH_RESPONSE : Int) + 1) > 0) ∧
      ((Listener_process_flash_socket env l).1 = -1 ↔
        env.Listener_write_func l.fd (FLASH_RESPONSE ++ [0])
          ((strlen FLASH_RESPONSE : Int) + 1) ≤ 0) := by
  unfold Listener_process_flash_socket
  by_cases h : env.Listener_write_func l.fd (FLASH_RESPONSE ++ [0])
      ((strlen FLASH_RESPONSE : Int) + 1) > 0
  · simp [h]
  · simp [h]
    omega

/-! ## HTTP dispatch -/

/-- C5: with a default host and a PATH that the host matcher maps to no
backend, `Listener_process_http` writes the literal `HTTP_404` bytes, then
closes the socket, then returns -1; it makes no proxy or file handoff.  The
literal has the status line 404 Not Found, the header Content-Length: 9 and
the 9-byte body "Not Found". -/
theorem Listener_process_http_not_found (BUFFER_SIZE : Nat) (env : Env) (l : Listener)
    (host : Nat) (path : CString)
    (hhost : l.server.default_host = some host)
    (hpath : l.parser.PATH = some path)
    (hmiss : env.Host_match (some host) path (strlen path) = none) :
    Listener_process_http BUFFER_SIZE env l =
        (-1, [Event.taskname (cstr "Listener_task"),
              Event.Host_match (some host) path (strlen path),
              Event.taskstate (cstr "404"),
              Event.fdwrite l.fd HTTP_404 (strlen HTTP_404),
              Event.taskstate (cstr "closing"),
              Event.close l.fd]) ∧
      (Listener_process_http BUFFER_SIZE env l).2.countP Event.isHandoff = 0 ∧
      HTTP_404 = cstr "HTTP/1.1 404 Not Found\r\nContent-Type: text/plain\r\nConnection: close\r\nContent-Length: 9\r\nServer: Mongrel2\r\n\r\nNot Found" ∧
      HTTP_404.drop (strlen HTTP_404 - 9) = cstr "Not Found" ∧
      strlen (cstr "Not Found") = 9 := by
  have hrun : Listener_process_http BUFFER_SIZE env l =
        (-1, [Event.taskname (cstr "Listener_task"),
              Event.Host_match (some host) path (strlen path),
              Event.taskstate (cstr "404"),
              Event.fdwrite l.fd HTTP_404 (strlen HTTP_404),
              Event.taskstate (cstr "closing"),
              Event.close l.fd]) := by
    simp [Listener_process_http, Listener_match_path, hhost, hpath, hmiss]
  refine ⟨hrun, ?_, ?_, ?_, ?_⟩
  · rw [hrun]
    rfl
  · set_option maxRecDepth 100000 in decide
  · set_option maxRecDepth 100000 in decide
  · decide

/-- C5, witness: the request for `/missing` with no matching backend. -/
theorem Listener_process_http_not_found_witness :
    Listener_process_http 2048 quietEnv missingListener =
      (-1, [Event.taskname (cstr "Listener_task"),
            Event.Host_match (some 1) (cstr "/missing") (strlen (cstr "/missing")),
            Event.taskstate (cstr "404"),
            Event.fdwrite missingListener.fd HTTP_404 (strlen HTTP_404),
            Event.taskstate (cstr "closing"),
            Event.close missingListener.fd]) :=
  (Listener_process_http_not_found 2048 quietEnv missingListener 1 (cstr "/missing")
    rfl rfl rfl).1

/-- C8, counterexample: for a PATH routed to a Handler backend,
`Listener_process_http` returns failure without writing the 404 response
(it writes nothing). -/
theorem Listener_process_http_handler_no_404 :
    missingListener.server.default_host = some 1 ∧
      missingListener.parser.PATH = some (cstr "/missing") ∧
      handlerEnv.Host_match (some 1) (cstr "/missing") (strlen (cstr "/missing")) =
        some { type := BackendType.BACKEND_HANDLER, target := 3 } ∧
      Listener_process_http 2048 handlerEnv missingListener =
        (-1, [Event.taskname (cstr "Listener_task"),
              Event.Host_match (some 1) (cstr "/missing") 8,
              Event.taskstate (cstr "error")]) ∧
      Event.fdwrite missingListener.fd HTTP_404 (strlen HTTP_404) ∉
        (Listener_process_http 2048 handlerEnv missingListener).2 := by
  set_option maxRecDepth 100000 in decide

/-- C8, as amended: with a default host and a PATH, when the host matcher
finds no backend `Listener_process_http` writes the literal 404 response
before it closes the socket and returns failure; when the backend found is
tagged Handler or has an unrecognised tag it returns failure and neither
writes a response nor closes the socket. -/
theorem Listener_process_http_routing_error (BUFFER_SIZE : Nat) (env : Env) (l : Listener)
    (host : Nat) (path : CString)
    (hhost : l.server.default_host = some host)
    (hpath : l.parser.PATH = some path) :
    (env.Host_match (some host) path (strlen path) = none →
        (Listener_process_http BUFFER_SIZE env l).1 = -1 ∧
        ∃ pre mid, (Listener_process_http BUFFER_SIZE env l).2 =
          pre ++ [Event.fdwrite l.fd HTTP_404 (strlen HTTP_404)] ++ mid ++ [Event.close l.fd]) ∧
      (∀ found, env.Host_match (some host) path (strlen path) = some found →
        (found.type = BackendType.BACKEND_HANDLER ∨ ∃ id, found.type = BackendType.unknown id) →
        (Listener_process_http BUFFER_SIZE env l).1 = -1 ∧
        (Listener_process_http BUFFER_SIZE env l).2.countP Event.isWrite = 0 ∧
        (Listener_process_http BUFFER_SIZE env l).2.countP Event.isClose = 0) := by
  constructor
  · intro hmiss
    refine ⟨?_, [Event.taskname (cstr "Listener_task"),
      Event.Host_match (some host) path (strlen path), Event.taskstate (cstr "404")],
      [Event.taskstate (cstr "closing")], ?_⟩
    · simp [Listener_process_http, Listener_match_path, hhost, hpath, hmiss]
    · simp [Listener_process_http, Listener_match_path, hhost, hpath, hmiss]
  · intro found hfound htag
    rcases htag with htag | ⟨id, htag⟩
    · simp [Listener_process_http, Listener_match_path, hhost, hpath, hfound, htag,
        Event.isWrite, Event.isClose]
    · simp [Listener_process_http, Listener_match_path, hhost, hpath, hfound, htag,
        Event.isWrite, Event.isClose]

/-- C8, witness: the amended statement at the request for `/missing`,
without a backend and with a Handler backend. -/
theorem Listener_process_http_routing_error_witness :
    (Listener_process_http 2048 quietEnv missingListener).1 = -1 ∧
      (Listener_process_http 2048 handlerEnv missingListener).2.countP Event.isWrite = 0 :=
  ⟨((Listener_process_http_routing_error 2048 quietEnv missingListener 1 (cstr "/missing")
      rfl rfl).1 rfl).1,
   ((Listener_process_http_routing_error 2048 handlerEnv missingListener 1 (cstr "/missing")
      rfl rfl).2 { type := BackendType.BACKEND_HANDLER, target := 3 } rfl (Or.inl rfl)).2.1⟩

/-! ## JSON socket messages -/

/-- C4: with a default host, a payload that matches the ping pattern makes
`Listener_process_json` call `Register_ping` exactly once, look up no
backend, deliver to no handler, leave `registered` true and return success;
it issues no `Register_disconnect` when the keepalive succeeds and exactly
one when the keepalive reports failure. -/
theorem Listener_process_json_ping (env : Env) (l : Listener) (host : Nat)
    (hhost : l.server.default_host = some host)
    (hping : env.pattern_match l.buf l.parser.body_start PING_PATTERN = true) :
    (Listener_process_json env l).1 = 0 ∧
      (Listener_process_json env l).2.1.registered = true ∧
      (Listener_process_json env l).2.2.countP Event.isPing = 1 ∧
      (Listener_process_json env l).2.2.countP Event.isLookup = 0 ∧
      (Listener_process_json env l).2.2.countP Event.isDeliver = 0 ∧
      (env.Register_ping l.fd ≠ 0 →
        (Listener_process_json env l).2.2.countP Event.isDisconnect = 0) ∧
      (env.Register_ping l.fd = 0 →
        (Listener_process_json env l).2.2.countP Event.isDisconnect = 1) := by
  cases hreg : l.registered <;> by_cases hk : env.Register_ping l.fd = 0 <;>
    simp [Listener_process_json, hhost, hping, hreg, hk, Event.isPing, Event.isLookup,
      Event.isDeliver, Event.isDisconnect]

/-- C4, witness: a first ping whose keepalive succeeds and one whose
keepalive fails. -/
theorem Listener_process_json_ping_witness :
    (Listener_process_json pingEnv jsonListener).2.2.countP Event.isDisconnect = 0 ∧
      (Listener_process_json pingFailEnv jsonListener).2.2.countP Event.isDisconnect = 1 :=
  ⟨(Listener_process_json_ping pingEnv jsonListener 1 rfl rfl).2.2.2.2.2.1 (by decide),
   (Listener_process_json_ping pingFailEnv jsonListener 1 rfl rfl).2.2.2.2.2.2 rfl⟩

/-- C9: with a default host `Listener_process_json` returns failure exactly
when the payload does not match the ping pattern and routing fails (no
PATH attribute, no backend found, or a backend that is not tagged Handler), and
success otherwise; a non-ping payload routed to a Handler backend is
delivered and gives success even when `Handler_deliver` reports failure.
Without a default host it returns failure and makes no call at all, so no
registration call. -/
theorem Listener_process_json_result (env : Env) (l : Listener) :
    (∀ host, l.server.default_host = some host →
        ((Listener_process_json env l).1 = -1 ↔
          (env.pattern_match l.buf l.parser.body_start PING_PATTERN = false ∧
            (l.parser.PATH = none ∨
              ∃ path, l.parser.PATH = some path ∧
                (env.Host_match (some host) path (strlen path) = none ∨
                  ∃ found, env.Host_match (some host) path (strlen path) = some found ∧
                    found.type ≠ BackendType.BACKEND_HANDLER)))) ∧
        ((Listener_process_json env l).1 ≠ -1 → (Listener_process_json env l).1 = 0) ∧
        (∀ path found,
          env.pattern_match l.buf l.parser.body_start PING_PATTERN = false →
          l.parser.PATH = some path →
          env.Host_match (some host) path (strlen path) = some found →
          found.type = BackendType.BACKEND_HANDLER →
          env.Handler_deliver found.target l.fd l.buf l.nread = -1 →
          (Listener_process_json env l).1 = 0 ∧
          Event.Handler_deliver found.target l.fd l.buf l.nread ∈
            (Listener_process_json env l).2.2)) ∧
      (l.server.default_host = none →
        (Listener_process_json env l).1 = -1 ∧ (Listener_process_json env l).2.2 = []) := by
  constructor
  · intro host hhost
    refine ⟨?_, ?_, ?_⟩
    · cases hreg : l.registered <;>
        cases hping : env.pattern_match l.buf l.parser.body_start PING_PATTERN <;>
        cases hpath : l.parser.PATH with
        | none =>
          by_cases hk : env.Register_ping l.fd = 0 <;>
            simp [Listener_process_json, Listener_match_path, hhost, hping, hreg, hpath, hk]
        | some path =>
          by_cases hk : env.Register_ping l.fd = 0 <;>
          cases hfound : env.Host_match (some host) path (strlen path) with
          | none =>
            simp [Listener_process_json, Listener_match_path, hhost, hping, hreg, hpath, hk,
              hfound]
          | some found =>
            by_cases htag : found.type = BackendType.BACKEND_HANDLER <;>
              simp [Listener_process_json, Listener_match_path, hhost, hping, hreg, hpath, hk,
                hfound, htag]
    · cases hreg : l.registered <;>
        cases hping : env.pattern_match l.buf l.parser.body_start PING_PATTERN <;>
        cases hpath : l.parser.PATH with
        | none =>
          by_cases hk : env.Register_ping l.fd = 0 <;>
            simp [Listener_process_json, Listener_match_path, hhost, hping, hreg, hpath, hk]
        | some path =>
          by_cases hk : env.Register_ping l.fd = 0 <;>
          cases hfound : env.Host_match (some host) path (strlen path) with
          | none =>
            simp [Listener_process_json, Listener_match_path, hhost, hping, hreg, hpath, hk,
              hfound]
          | some found =>
            by_cases htag : found.type = BackendType.BACKEND_HANDLER <;>
              simp [Listener_process_json, Listener_match_path, hhost, hping, hreg, hpath, hk,
                hfound, htag]
    · intro path found hping hpath hfound htag _
      cases hreg : l.registered <;>
        simp [Listener_process_json, Listener_match_path, hhost, hping, hreg, hpath,
          hfound, htag]
  · intro hnone
    simp [Listener_process_json, hnone]

/-- C9, witness: a non-ping message routed to a Handler backend whose
delivery fails still gives success, and a listener without default host
gives failure. -/
theorem Listener_process_json_result_witness :
    (Listener_process_json deliverFailEnv jsonListener).1 = 0 ∧
      (Listener_process_json quietEnv
        { jsonListener with server := { default_host := none } }).1 = -1 :=
  ⟨(((Listener_process_json_result deliverFailEnv jsonListener).1 1 rfl).2.2
      (cstr "@chat") { type := BackendType.BACKEND_HANDLER, target := 3 }
      rfl rfl rfl rfl rfl).1,
   ((Listener_process_json_result quietEnv
      { jsonListener with server := { default_host := none } }).2 rfl).1⟩

/-! ## Delivery encoding -/

/-- Every base64 digit differs from the padding character and is mapped
back to its value. -/
theorem b64_char_spec : ∀ i, i < 64 → b64_char i ≠ 61 ∧ b64_index (b64_char i) = i := by
  set_option maxRecDepth 100000 in decide

/-- The encoding of `n` bytes has `4 * ceil (n / 3)` characters. -/
theorem b64_encode_chars_length (xs : List Nat) :
    (b64_encode_chars xs).length = (xs.length + 2) / 3 * 4 := by
  induction xs using b64_encode_chars.induct with
  | case1 => rfl
  | case2 a => simp [b64_encode_chars]
  | case3 a b => simp [b64_encode_chars]
  | case4 a b c rest ih =>
    simp only [b64_encode_chars, List.length_cons, ih]
    omega

/-- Decoding an encoded byte string gives the byte string back. -/
theorem b64_decode_encode (xs : List Nat) (h : ∀ x ∈ xs, x < 256) :
    b64_decode_chars (b64_encode_chars xs) = xs := by
  induction xs using b64_encode_chars.induct with
  | case1 => rfl
  | case2 a =>
    have ha : a < 256 := h a (by simp)
    have h0 := b64_char_spec (a / 4) (by omega)
    have h1 := b64_char_spec (a % 4 * 16) (by omega)
    simp only [b64_encode_chars, b64_decode_chars, if_true, h0.2, h1.2]
    congr 1
    omega
  | case3 a b =>
    have ha : a < 256 := h a (by simp)
    have hb : b < 256 := h b (by simp)
    have h0 := b64_char_spec (a / 4) (by omega)
    have h1 := b64_char_spec (a % 4 * 16 + b / 16) (by omega)
    have h2 := b64_char_spec (b % 16 * 4) (by omega)
    simp only [b64_encode_chars, b64_decode_chars, if_true, if_neg h2.1, h0.2, h1.2, h2.2]
    congr 1
    · omega
    · congr 1
      omega
  | case4 a b c rest ih =>
    have ha : a < 256 := h a (by simp)
    have hb : b < 256 := h b (by simp)
    have hc : c < 256 := h c (by simp)
    have h0 := b64_char_spec (a / 4) (by omega)
    have h1 := b64_char_spec (a % 4 * 16 + b / 16) (by omega)
    have h2 := b64_char_spec (b % 16 * 4 + c / 64) (by omega)
    have h3 := b64_char_spec (c % 64) (by omega)
    have hrest : ∀ x ∈ rest, x < 256 := fun x hx => h x (by simp [hx])
    simp only [b64_encode_chars, b64_decode_chars, if_neg h2.1, if_neg h3.1, h0.2, h1.2, h2.2,
      h3.2, ih hrest]
    congr 1
    · omega
    · congr 1
      · omega
      · congr 1
        omega

/-- The payload has `len` bytes. -/
theorem payload_length (buffer : Int → Nat) (len : Nat) :
    (payload buffer len).length = len := by
  simp [payload]

/-- The first `n + 1` bytes of the zeroed scratch buffer after `n`
characters were stored in it and the terminator was set. -/
theorem b64_buf_message (chars : List Nat) (cap : Nat) (hcap : chars.length < cap) :
    ((chars ++ List.replicate (cap - chars.length) 0).set chars.length 0).take
      (chars.length + 1) = chars ++ [0] := by
  obtain ⟨k, hk⟩ : ∃ k, cap - chars.length = k + 1 := ⟨cap - chars.length - 1, by omega⟩
  rw [hk, List.replicate_succ]
  simp [List.set_append_right, List.take_append_eq_append_take]


/-- A buffer of bytes gives a payload of bytes. -/
theorem payload_lt (buffer : Int → Nat) (len : Nat)
    (h : ∀ i : Nat, i < len → buffer (i : Int) < 256) :
    ∀ x ∈ payload buffer len, x < 256 := by
  intro x hx
  simp only [payload, List.mem_map, List.mem_range] at hx
  obtain ⟨i, hi, rfl⟩ := hx
  exact h i hi

/-- C1, counterexample: the buffer `a \0 b \0` delivered with length 3 has
a terminator at offset 1, before offset 3, and `Listener_deliver` still
returns success and calls the write function. -/
theorem Listener_deliver_early_terminator :
    earlyTerminatorBuffer 3 = 0 ∧ earlyTerminatorBuffer 1 = 0 ∧
      Listener_deliver 2048 quietEnv 5 earlyTerminatorBuffer 3 =
        (0, [Event.Listener_write_func 5 (cstr "YQBi" ++ [0]) 5]) := by
  set_option maxRecDepth 100000 in decide

/-- C1, as amended: when the byte at offset `len` is not the terminator, or
the byte at offset `len - 1`, immediately before it, is a terminator,
`Listener_deliver` returns -1 and the write function is never called. -/
theorem Listener_deliver_rejects (BUFFER_SIZE : Nat) (env : Env) (to_fd : Int)
    (buffer : Int → Nat) (len : Nat)
    (h : buffer (len : Int) ≠ 0 ∨ (1 ≤ len ∧ buffer ((len : Int) - 1) = 0)) :
    Listener_deliver BUFFER_SIZE env to_fd buffer len = (-1, []) := by
  unfold Listener_deliver
  rcases h with h | ⟨_, h⟩
  · simp [h]
  · by_cases h0 : buffer (len : Int) = 0 <;> simp [h0, h]

/-- C1, witness: a buffer without terminator at offset 3, and the buffer
`a \0 b \0` read with length 2. -/
theorem Listener_deliver_rejects_witness :
    Listener_deliver 2048 quietEnv 5 unterminatedBuffer 3 = (-1, []) ∧
      Listener_deliver 2048 quietEnv 5 earlyTerminatorBuffer 2 = (-1, []) :=
  ⟨Listener_deliver_rejects 2048 quietEnv 5 unterminatedBuffer 3 (Or.inl (by decide)),
   Listener_deliver_rejects 2048 quietEnv 5 earlyTerminatorBuffer 2
    (Or.inr ⟨by decide, by decide⟩)⟩

/-- C2, counterexample: three well terminated messages whose destination
accepts every write and for which `Listener_deliver` returns -1 and writes
nothing.  A message of length 0, whose encoding has no character
(`check(b64_len > 0, ...)`); a message of 2304 bytes, whose 3072 characters
exceed the capacity 3071 given to the encoder for `BUFFER_SIZE` 2048; and a
message of three bytes when `calloc` returns no buffer. -/
theorem Listener_deliver_refused_messages :
    (emptyMessageBuffer 0 = 0 ∧
        (∀ i : Nat, i < 0 → emptyMessageBuffer (i : Int) ≠ 0) ∧
        (∀ data n, quietEnv.Listener_write_func 5 data n = n) ∧
        Listener_deliver 2048 quietEnv 5 emptyMessageBuffer 0 = (-1, [])) ∧
      (longMessageBuffer 2304 = 0 ∧
        (∀ i : Nat, i < 2304 → longMessageBuffer (i : Int) ≠ 0) ∧
        Listener_deliver 2048 quietEnv 5 longMessageBuffer 2304 = (-1, [])) ∧
      (manBuffer 3 = 0 ∧
        (∀ i : Nat, i < 3 → manBuffer (i : Int) ≠ 0) ∧
        (∀ data n, noMemoryEnv.Listener_write_func 5 data n = n) ∧
        Listener_deliver 2048 noMemoryEnv 5 manBuffer 3 = (-1, [])) := by
  refine ⟨⟨by decide, fun i h => absurd h (Nat.not_lt_zero i), fun _ _ => rfl, by decide⟩,
    ⟨by decide, ?_, by decide⟩, ⟨by decide, by decide, fun _ _ => rfl, by decide⟩⟩
  intro i hi
  have h : (0 : Int) ≤ (i : Int) ∧ (i : Int) < 2304 := ⟨by omega, by omega⟩
  simp [longMessageBuffer, h]

/-- C2, as amended: for every length `len` of at least 1 whose encoding,
`4 * ceil (len / 3)` characters, fits the capacity `BUFFER_SIZE * 1.5 - 1`,
and every buffer of bytes with the terminator at offset `len` and none
before it, when the scratch buffer is allocated and the destination accepts
the whole write, `Listener_deliver` returns 0 and writes exactly one
message: the base64 encoding of the first `len` bytes followed by one
terminator; decoding the message without its last byte gives the `len`
bytes back. -/
theorem Listener_deliver_round_trip (BUFFER_SIZE : Nat) (env : Env) (to_fd : Int)
    (buffer : Int → Nat) (len : Nat)
    (hlen : 1 ≤ len)
    (hfit : (len + 2) / 3 * 4 ≤ BUFFER_SIZE * 3 / 2 - 1)
    (hbytes : ∀ i : Nat, i < len → buffer (i : Int) < 256)
    (hterm : buffer (len : Int) = 0)
    (hnone : ∀ i : Nat, i < len → buffer (i : Int) ≠ 0)
    (halloc : env.calloc (BUFFER_SIZE * 3 / 2) = true)
    (hwrite : env.Listener_write_func to_fd (b64_encode_chars (payload buffer len) ++ [0])
        ((((len + 2) / 3 * 4 : Nat) : Int) + 1) = (((len + 2) / 3 * 4 : Nat) : Int) + 1) :
    Listener_deliver BUFFER_SIZE env to_fd buffer len =
        (0, [Event.Listener_write_func to_fd (b64_encode_chars (payload buffer len) ++ [0])
              ((((len + 2) / 3 * 4 : Nat) : Int) + 1)]) ∧
      (b64_encode_chars (payload buffer len)).length = (len + 2) / 3 * 4 ∧
      b64_decode_chars (b64_encode_chars (payload buffer len) ++ [0]).dropLast =
        payload buffer len ∧
      (payload buffer len).length = len := by
  have hplen := payload_length buffer len
  have hclen : (b64_encode_chars (payload buffer len)).length = (len + 2) / 3 * 4 := by
    rw [b64_encode_chars_length, hplen]
  have hprev : buffer ((len : Int) - 1) ≠ 0 := by
    have h := hnone (len - 1) (by omega)
    have e : ((len - 1 : Nat) : Int) = (len : Int) - 1 := by omega
    rwa [e] at h
  have htake : (payload buffer len).take len = payload buffer len := by
    apply List.take_of_length_le
    omega
  have hpos : 0 < (len + 2) / 3 * 4 := by omega
  have hmsg := b64_buf_message (b64_encode_chars (payload buffer len)) (BUFFER_SIZE * 3 / 2)
    (by omega)
  rw [hclen] at hmsg
  refine ⟨?_, hclen, ?_, hplen⟩
  · simp only [Listener_deliver, b64_encode, hterm, hprev, halloc, htake,
      if_neg (Nat.not_lt.mpr hfit), hclen, hmsg, hwrite, hpos, ne_eq, not_true_eq_false,
      if_false, if_true, gt_iff_lt, Bool.true_eq_false]
  · rw [List.dropLast_concat]
    exact b64_decode_encode _ (payload_lt buffer len hbytes)

/-- C2, witness: the three bytes `Man` are delivered as `TWFu` and a
terminator. -/
theorem Listener_deliver_round_trip_witness :
    Listener_deliver 2048 quietEnv 5 manBuffer 3 =
        (0, [Event.Listener_write_func 5 (cstr "TWFu" ++ [0]) 5]) ∧
      b64_decode_chars (cstr "TWFu" ++ [0]).dropLast = [77, 97, 110] :=
  ⟨(Listener_deliver_round_trip 2048 quietEnv 5 manBuffer 3 (by decide) (by decide)
      (by decide) (by decide) (by decide) rfl rfl).1,
   (Listener_deliver_round_trip 2048 quietEnv 5 manBuffer 3 (by decide) (by decide)
      (by decide) (by decide) (by decide) rfl rfl).2.2.1⟩

/-! ## Connection loop -/

/-- The read keeps the descriptor. -/
@[simp]
theorem Listener_read_fd (B : Nat) (env : Env) (l : Listener) :
    (Listener_read B env l).fd = l.fd := rfl
/-- The read keeps the server. -/
@[simp]
theorem Listener_read_server (B : Nat) (env : Env) (l : Listener) :
    (Listener_read B env l).server = l.server := rfl
/-- The read keeps the registered flag. -/
@[simp]
theorem Listener_read_registered (B : Nat) (env : Env) (l : Listener) :
    (Listener_read B env l).registered = l.registered := rfl
/-- The read does not touch the parser. -/
@[simp]
theorem Listener_read_parser_state (B : Nat) (env : Env) (l : Listener) :
    (Listener_read B env l).parser = l.parser := rfl
/-- Storing the terminator keeps the descriptor. -/
@[simp]
theorem Listener_filled_fd (B : Nat) (env : Env) (l : Listener) :
    (Listener_filled B env l).fd = l.fd := rfl
/-- Storing the terminator keeps the server. -/
@[simp]
theorem Listener_filled_server (B : Nat) (env : Env) (l : Listener) :
    (Listener_filled B env l).server = l.server := rfl
/-- Storing the terminator keeps the registered flag. -/
@[simp]
theorem Listener_filled_registered (B : Nat) (env : Env) (l : Listener) :
    (Listener_filled B env l).registered = l.registered := rfl

/-- The parse step replaces the parser state and the parsed count only. -/
theorem Listener_parse_listener (env : Env) (l : Listener) :
    (Listener_parse env l).2.1 =
      { l with parser := (env.Request_parse l.buf l.nread).parser,
               nparsed := (env.Request_parse l.buf l.nread).nparsed } := by
  unfold Listener_parse
  simp only []
  split <;> rfl

/-- The parse step starts the parser and feeds it the bytes read. -/
theorem Listener_parse_events (env : Env) (l : Listener) :
    (Listener_parse env l).2.2 = [Event.Request_start, Event.Request_parse l.buf l.nread] := by
  unfold Listener_parse
  simp only []
  split <;> rfl

/-- The parse step succeeds exactly when the parser reports completion. -/
theorem Listener_parse_result (env : Env) (l : Listener) :
    (Listener_parse env l).1 = 0 ↔ (env.Request_parse l.buf l.nread).finished = 1 := by
  unfold Listener_parse
  simp only []
  split <;> simp [*]

/-- Handling a JSON message changes at most the registered flag, to true. -/
theorem Listener_process_json_listener (env : Env) (l : Listener) :
    (Listener_process_json env l).2.1 = l ∨
      (Listener_process_json env l).2.1 = { l with registered := true } := by
  unfold Listener_process_json
  cases l.server.default_host with
  | none => exact Or.inl rfl
  | some host =>
    simp only []
    cases hreg : l.registered
    · right
      simp only [Bool.false_eq_true, if_false]
      split
      · split <;> rfl
      · split
        · rfl
        · split <;> rfl
    · left
      simp only [if_true]
      split
      · split <;> rfl
      · split
        · rfl
        · split <;> rfl

/-- Handling a JSON message keeps the descriptor. -/
theorem Listener_process_json_fd (env : Env) (l : Listener) :
    (Listener_process_json env l).2.1.fd = l.fd := by
  rcases Listener_process_json_listener env l with h | h <;> rw [h]

/-- Handling a JSON message keeps the server. -/
theorem Listener_process_json_server (env : Env) (l : Listener) :
    (Listener_process_json env l).2.1.server = l.server := by
  rcases Listener_process_json_listener env l with h | h <;> rw [h]

/-- Handling a JSON message does not touch the parser. -/
theorem Listener_process_json_parser_state (env : Env) (l : Listener) :
    (Listener_process_json env l).2.1.parser = l.parser := by
  rcases Listener_process_json_listener env l with h | h <;> rw [h]

/-- Handling a JSON message never clears the registered flag. -/
theorem Listener_process_json_keeps (env : Env) (l : Listener) (h : l.registered = true) :
    (Listener_process_json env l).2.1.registered = true := by
  rcases Listener_process_json_listener env l with h1 | h1 <;> rw [h1]
  exact h

/-- With a default host, handling a JSON message leaves the flag set. -/
theorem Listener_process_json_sets (env : Env) (l : Listener)
    (hhost : l.server.default_host ≠ none) :
    (Listener_process_json env l).2.1.registered = true := by
  unfold Listener_process_json
  cases hh : l.server.default_host with
  | none => exact absurd hh hhost
  | some host =>
    cases hreg : l.registered <;> simp only [Bool.false_eq_true, if_false, if_true] <;>
      split <;> (try split) <;> (try split) <;> first | rfl | exact hreg


/-- Handling a JSON message connects once when the listener is not yet
registered and a default host exists, and never otherwise. -/
theorem Listener_process_json_connects (env : Env) (l : Listener) :
    (Listener_process_json env l).2.2.countP Event.isConnect =
      if l.registered = false ∧ l.server.default_host ≠ none then 1 else 0 := by
  unfold Listener_process_json Listener_match_path
  cases l.server.default_host <;> cases l.registered <;> simp only [] <;>
    repeat' split
  all_goals simp_all [Event.isConnect]

/-- Handling a JSON message neither reads nor destroys. -/
theorem Listener_process_json_quiet (env : Env) (l : Listener) :
    (Listener_process_json env l).2.2.countP Event.isRead = 0 ∧
      (Listener_process_json env l).2.2.countP Event.isDestroy = 0 ∧
      Event.Listener_process_json ∉ (Listener_process_json env l).2.2 := by
  unfold Listener_process_json Listener_match_path
  cases l.server.default_host <;> cases l.registered <;> simp only [] <;>
    repeat' split
  all_goals simp_all [Event.isRead, Event.isDestroy]

/-- The HTTP dispatch makes no read, destroy or registration call. -/
theorem Listener_process_http_quiet (B : Nat) (env : Env) (l : Listener) :
    (Listener_process_http B env l).2.countP Event.isRead = 0 ∧
      (Listener_process_http B env l).2.countP Event.isDestroy = 0 ∧
      (Listener_process_http B env l).2.countP Event.isDisconnect = 0 ∧
      (Listener_process_http B env l).2.countP Event.isConnect = 0 ∧
      (Listener_process_http B env l).2.countP Event.isDeliver = 0 ∧
      Event.Listener_process_json ∉ (Listener_process_http B env l).2 := by
  unfold Listener_process_http Listener_match_path
  cases l.server.default_host <;> simp only [] <;>
    repeat' split
  all_goals simp_all [Event.isRead, Event.isDestroy, Event.isDisconnect, Event.isConnect,
    Event.isDeliver]


/-- The flash responder makes exactly one write. -/
theorem Listener_process_flash_socket_events (env : Env) (l : Listener) :
    (Listener_process_flash_socket env l).2 =
      [Event.Listener_write_func l.fd (FLASH_RESPONSE ++ [0])
        ((strlen FLASH_RESPONSE : Int) + 1)] := by
  unfold Listener_process_flash_socket
  simp only []
  split <;> rfl

/-- A pass keeps the descriptor and the server. -/
theorem Listener_pass_fd (B : Nat) (env : Env) (l : Listener) :
    (Listener_pass B env l).listener.fd = l.fd ∧
      (Listener_pass B env l).listener.server = l.server := by
  unfold Listener_pass
  simp only []
  split_ifs <;>
    simp [Listener_parse_listener, Listener_process_json_fd, Listener_process_json_server]

/-- A pass never clears the registered flag. -/
theorem Listener_pass_keeps (B : Nat) (env : Env) (l : Listener) (h : l.registered = true) :
    (Listener_pass B env l).listener.registered = true := by
  unfold Listener_pass
  simp only []
  split_ifs <;>
    simp [Listener_parse_listener, h]
  apply Listener_process_json_keeps
  simp [Listener_parse_listener, h]

/-- A pass starts with its read, the only one, and destroys nothing. -/
theorem Listener_pass_events (B : Nat) (env : Env) (l : Listener) :
    (∃ tail, (Listener_pass B env l).events =
        Event.Listener_read_func l.fd ((B : Int) - 1) :: tail) ∧
      (Listener_pass B env l).events.countP Event.isRead = 1 ∧
      (Listener_pass B env l).events.countP Event.isDestroy = 0 := by
  have hj := Listener_process_json_quiet env (Listener_parse env (Listener_filled B env l)).2.1
  have hh := Listener_process_http_quiet B env (Listener_parse env (Listener_filled B env l)).2.1
  unfold Listener_pass
  simp only []
  split_ifs <;>
    simp [Listener_parse_events, Listener_process_flash_socket_events, Event.isRead,
      Event.isDestroy, hj, hh, List.countP_cons]

/-- A pass connects only when it dispatches to JSON; a pass that does not
leaves the loop. -/
theorem Listener_pass_connects (B : Nat) (env : Env) (l : Listener) :
    (Event.Listener_process_json ∈ (Listener_pass B env l).events →
        (Listener_pass B env l).events.countP Event.isConnect =
          if l.registered = false ∧ l.server.default_host ≠ none then 1 else 0) ∧
      (Event.Listener_process_json ∉ (Listener_pass B env l).events →
        (Listener_pass B env l).events.countP Event.isConnect = 0 ∧
        (Listener_pass B env l).again = false) := by
  have hj := Listener_process_json_quiet env (Listener_parse env (Listener_filled B env l)).2.1
  have hc := Listener_process_json_connects env (Listener_parse env (Listener_filled B env l)).2.1
  have hh := Listener_process_http_quiet B env (Listener_parse env (Listener_filled B env l)).2.1
  have e1 : (Listener_parse env (Listener_filled B env l)).2.1.registered = l.registered := by
    simp [Listener_parse_listener]
  have e2 : (Listener_parse env (Listener_filled B env l)).2.1.server = l.server := by
    simp [Listener_parse_listener]
  rw [e1, e2] at hc
  unfold Listener_pass
  simp only []
  split_ifs <;>
    simp_all [Listener_parse_events, Listener_process_flash_socket_events, Event.isConnect,
      List.countP_cons]

/-- A pass that dispatched to JSON has the JSON signal set and the
registered flag set when the server has a default host. -/
theorem Listener_pass_json (B : Nat) (env : Env) (l : Listener)
    (h : Event.Listener_process_json ∈ (Listener_pass B env l).events) :
    (Listener_pass B env l).listener.parser.json_sent = true ∧
      (l.server.default_host ≠ none → (Listener_pass B env l).listener.registered = true) := by
  have hj := Listener_process_json_quiet env (Listener_parse env (Listener_filled B env l)).2.1
  have hs := Listener_process_json_sets env (Listener_parse env (Listener_filled B env l)).2.1
  have hh := Listener_process_http_quiet B env (Listener_parse env (Listener_filled B env l)).2.1
  revert h
  unfold Listener_pass
  simp only []
  split_ifs with h1 h2 h3 h4 <;>
    simp [Listener_parse_events, Listener_process_flash_socket_events, hh, hj,
      Listener_process_json_parser_state]
  refine ⟨h4, ?_⟩
  intro hhost
  apply hs
  simpa [Listener_parse_listener] using hhost

/-- After a read with bytes and a complete parse, control returns to the
loop condition exactly after a successful JSON message. -/
theorem Listener_pass_again (B : Nat) (env : Env) (l : Listener)
    (hread : (Listener_read B env l).nread > 0)
    (hparse : (Listener_parse env (Listener_filled B env l)).1 = 0) :
    ((Listener_pass B env l).again = true ↔
      ((Listener_parse env (Listener_filled B env l)).2.1.parser.socket_started = false ∧
        (Listener_parse env (Listener_filled B env l)).2.1.parser.json_sent = true ∧
        (Listener_process_json env
          (Listener_parse env (Listener_filled B env l)).2.1).1 = 0)) := by
  unfold Listener_pass
  simp only []
  rw [if_pos hread, if_pos hparse]
  split_ifs with h3 h4 <;> simp_all

/-- The teardown destroys once and makes no read, connect or delivery. -/
theorem Listener_teardown_quiet (l : Listener) :
    (Listener_teardown l).countP Event.isRead = 0 ∧
      (Listener_teardown l).countP Event.isConnect = 0 ∧
      (Listener_teardown l).countP Event.isDeliver = 0 ∧
      (Listener_teardown l).countP Event.isDestroy = 1 ∧
      Event.Listener_process_json ∉ Listener_teardown l := by
  unfold Listener_teardown
  split <;> simp [Event.isRead, Event.isConnect, Event.isDeliver, Event.isDestroy,
    List.countP_cons]

/-- A registered listener stays registered and connects no more. -/
theorem Listener_task_keeps (B : Nat) (script : List Env) :
    ∀ l : Listener, l.registered = true →
      (Listener_task B l script).2.registered = true ∧
      (Listener_task B l script).1.countP Event.isConnect = 0 := by
  induction script with
  | nil =>
    intro l h
    have ht := Listener_teardown_quiet { l with nread := 0 }
    refine ⟨h, ?_⟩
    simp only [Listener_task]
    rw [List.countP_cons, ht.2.1]
    rfl
  | cons env rest ih =>
    intro l h
    have hk := Listener_pass_keeps B env l h
    have hc := Listener_pass_connects B env l
    have hc0 : (Listener_pass B env l).events.countP Event.isConnect = 0 := by
      by_cases hm : Event.Listener_process_json ∈ (Listener_pass B env l).events
      · rw [hc.1 hm]
        simp [h]
      · exact (hc.2 hm).1
    have ht := Listener_teardown_quiet (Listener_pass B env l).listener
    have hi := ih (Listener_pass B env l).listener hk
    unfold Listener_task
    simp only []
    split_ifs <;> simp [hk, hc0, ht, hi]

/-- A non-ping message routed to a Handler backend is delivered once. -/
theorem Listener_process_json_delivers (env : Env) (l : Listener)
    (hhost : l.server.default_host ≠ none)
    (hping : ∀ buf n p, env.pattern_match buf n p = false)
    (hpath : l.parser.PATH ≠ none)
    (hmatch : ∀ h p n, ∃ b, env.Host_match h p n = some b ∧
      b.type = BackendType.BACKEND_HANDLER) :
    (Listener_process_json env l).1 = 0 ∧
      (Listener_process_json env l).2.2.countP Event.isDeliver = 1 := by
  cases hh : l.server.default_host with
  | none => exact absurd hh hhost
  | some host =>
    cases hp : l.parser.PATH with
    | none => exact absurd hp hpath
    | some path =>
      obtain ⟨b, hb, htag⟩ := hmatch (some host) path (strlen path)
      cases hreg : l.registered <;>
        simp [Listener_process_json, Listener_match_path, hh, hp, hping, hb, htag, hreg,
          Event.isDeliver, List.countP_cons]

/-- A pass over a non-ping JSON message delivers once and continues. -/
theorem Listener_pass_nonPingJson (B : Nat) (env : Env) (l : Listener)
    (hhost : l.server.default_host ≠ none) (hmsg : env.nonPingJson) :
    (Listener_pass B env l).again = true ∧
      (Listener_pass B env l).events.countP Event.isDeliver = 1 ∧
      Event.Listener_process_json ∈ (Listener_pass B env l).events := by
  obtain ⟨hread, hparse, hping, hmatch⟩ := hmsg
  have hr : (Listener_read B env l).nread > 0 := hread l.fd ((B : Int) - 1)
  obtain ⟨hfin, hflash, hjson, hpath⟩ :=
    hparse (Listener_filled B env l).buf (Listener_filled B env l).nread
  have hp := (Listener_parse_result env (Listener_filled B env l)).mpr hfin
  have hd := Listener_process_json_delivers env (Listener_parse env (Listener_filled B env l)).2.1
    (by simpa [Listener_parse_listener] using hhost) hping
    (by simpa [Listener_parse_listener] using hpath) hmatch
  have hf : (Listener_parse env (Listener_filled B env l)).2.1.parser.socket_started = false := by
    simpa [Listener_parse_listener] using hflash
  have hj : (Listener_parse env (Listener_filled B env l)).2.1.parser.json_sent = true := by
    simpa [Listener_parse_listener] using hjson
  unfold Listener_pass
  simp only []
  rw [if_pos hr, if_pos hp]
  simp [hf, hj, hd, Listener_parse_events, Event.isDeliver, List.countP_cons]

/-- Every run reads at least once. -/
theorem Listener_task_reads (B : Nat) (l : Listener) (script : List Env) :
    1 ≤ (Listener_task B l script).1.countP Event.isRead := by
  cases script with
  | nil => simp [Listener_task, Event.isRead, List.countP_cons]
  | cons env rest =>
    have h := (Listener_pass_events B env l).2.1
    unfold Listener_task
    simp only []
    split_ifs <;> simp only [List.countP_append, h] <;> omega

/-- A created listener is not registered. -/
theorem Listener_create_registered (B I : Nat) (ok : Bool) (req : Option Request)
    (srv : Server) (fd rport : Int) (remote : CString) (l : Listener)
    (h : Listener_create B I ok req srv fd rport remote = some l) :
    l.registered = false := by
  unfold Listener_create at h
  cases ok with
  | false => simp at h
  | true =>
    cases req with
    | none => simp at h
    | some parser =>
      simp only [if_true, Option.some.injEq] at h
      rw [← h]

/-- C3: in every run of `Listener_task` on a listener made by
`Listener_create`, for a server with a default host, in which
a message is dispatched to `Listener_process_json`, `Register_connect` is
called exactly once over the whole run and the listener ends registered;
two non-ping JSON messages give one connect call and two `Handler_deliver`
calls; and the registered flag, once true, is kept true by
`Listener_process_json`, by every pass of the loop and to the end of the
run, with no further connect. -/
theorem Listener_task_connect_once (BUFFER_SIZE IPADDR_SIZE : Nat) (calloc_ok : Bool)
    (Request_create : Option Request) (srv : Server) (fd rport : Int) (remote : CString)
    (l : Listener) (script : List Env)
    (hcreate : Listener_create BUFFER_SIZE IPADDR_SIZE calloc_ok Request_create srv fd rport
      remote = some l)
    (hhost : l.server.default_host ≠ none) :
    (Event.Listener_process_json ∈ (Listener_task BUFFER_SIZE l script).1 →
        (Listener_task BUFFER_SIZE l script).1.countP Event.isConnect = 1 ∧
        (Listener_task BUFFER_SIZE l script).2.registered = true) ∧
      (∀ e1 e2 : Env, e1.nonPingJson → e2.nonPingJson →
        (Listener_task BUFFER_SIZE l [e1, e2]).1.countP Event.isConnect = 1 ∧
        (Listener_task BUFFER_SIZE l [e1, e2]).1.countP Event.isDeliver = 2) ∧
      (∀ (env : Env) (l1 : Listener), l1.registered = true →
        (Listener_process_json env l1).2.1.registered = true ∧
        (Listener_pass BUFFER_SIZE env l1).listener.registered = true) ∧
      (∀ (l1 : Listener) (rest : List Env), l1.registered = true →
        (Listener_task BUFFER_SIZE l1 rest).2.registered = true ∧
        (Listener_task BUFFER_SIZE l1 rest).1.countP Event.isConnect = 0) := by
  have hfresh : l.registered = false :=
    Listener_create_registered BUFFER_SIZE IPADDR_SIZE calloc_ok Request_create srv fd rport
      remote l hcreate
  have main : ∀ script : List Env, Event.Listener_process_json ∈ (Listener_task BUFFER_SIZE l script).1 →
      (Listener_task BUFFER_SIZE l script).1.countP Event.isConnect = 1 ∧
      (Listener_task BUFFER_SIZE l script).2.registered = true := by
    intro script
    cases script with
    | nil =>
      intro hm
      have ht := (Listener_teardown_quiet { l with nread := 0 }).2.2.2.2
      simp only [Listener_task, List.mem_cons] at hm
      rcases hm with hm | hm
      · cases hm
      · exact absurd hm ht
    | cons env rest =>
      intro hm
      have hc := Listener_pass_connects BUFFER_SIZE env l
      have ht := Listener_teardown_quiet (Listener_pass BUFFER_SIZE env l).listener
      by_cases hp : Event.Listener_process_json ∈ (Listener_pass BUFFER_SIZE env l).events
      · have h1 : (Listener_pass BUFFER_SIZE env l).events.countP Event.isConnect = 1 := by
          rw [hc.1 hp]
          simp [hfresh, hhost]
        have h2 := (Listener_pass_json BUFFER_SIZE env l hp).2 hhost
        have hk := Listener_task_keeps BUFFER_SIZE rest (Listener_pass BUFFER_SIZE env l).listener h2
        unfold Listener_task
        simp only []
        split_ifs
        · simp only [List.countP_append, h1, hk.2, hk.1, and_self]
        · simp only [List.countP_append, h1, ht.2.1, h2, and_self]
      · have hA := (hc.2 hp).2
        simp only [Listener_task, hA, Bool.false_eq_true, if_false, List.mem_append] at hm
        rcases hm with hm | hm
        · exact absurd hm hp
        · exact absurd hm ht.2.2.2.2
  refine ⟨main script, ?_, ?_, ?_⟩
  · intro e1 e2 h1 h2
    have p1 := Listener_pass_nonPingJson BUFFER_SIZE e1 l hhost h1
    have hs := (Listener_pass_fd BUFFER_SIZE e1 l).2
    have p2 := Listener_pass_nonPingJson BUFFER_SIZE e2 (Listener_pass BUFFER_SIZE e1 l).listener
      (by rw [hs]; exact hhost) h2
    have ht := Listener_teardown_quiet
      { (Listener_pass BUFFER_SIZE e2 (Listener_pass BUFFER_SIZE e1 l).listener).listener with nread := 0 }
    have hmem : Event.Listener_process_json ∈ (Listener_task BUFFER_SIZE l [e1, e2]).1 := by
      simp only [Listener_task, p1.1, if_true, List.mem_append]
      exact Or.inl p1.2.2
    refine ⟨(main [e1, e2] hmem).1, ?_⟩
    simp only [Listener_task, p1.1, p2.1, if_true, List.countP_append, p1.2.1, p2.2.1,
      List.countP_cons, ht.2.2.1]
    rfl
  · intro env l1 h1
    exact ⟨Listener_process_json_keeps env l1 h1, Listener_pass_keeps BUFFER_SIZE env l1 h1⟩
  · intro l1 rest h1
    exact Listener_task_keeps BUFFER_SIZE rest l1 h1

/-- C3, witness: two non-ping JSON messages on a fresh connection. -/
theorem Listener_task_connect_once_witness :
    ((Listener_task 2048 freshListener [jsonMsgEnv, jsonMsgEnv]).1.countP Event.isConnect = 1 ∧
        (Listener_task 2048 freshListener [jsonMsgEnv, jsonMsgEnv]).2.registered = true) ∧
      ((Listener_task 2048 freshListener [jsonMsgEnv, jsonMsgEnv]).1.countP Event.isConnect = 1 ∧
        (Listener_task 2048 freshListener [jsonMsgEnv, jsonMsgEnv]).1.countP Event.isDeliver = 2) :=
  ⟨(Listener_task_connect_once 2048 15 true
      (some { socket_started := false, json_sent := false, body_start := 0, PATH := none })
      { default_host := some 1 } 7 4000 (cstr "127.0.0.1") freshListener
      [jsonMsgEnv, jsonMsgEnv] rfl (by decide)).1 (by decide),
   (Listener_task_connect_once 2048 15 true
      (some { socket_started := false, json_sent := false, body_start := 0, PATH := none })
      { default_host := some 1 } 7 4000 (cstr "127.0.0.1") freshListener
      [jsonMsgEnv, jsonMsgEnv] rfl (by decide)).2.1 jsonMsgEnv jsonMsgEnv
      ⟨fun _ _ => (by decide : (0 : Int) < 20),
        fun _ _ => ⟨rfl, rfl, rfl, fun h => Option.noConfusion h⟩, fun _ _ _ => rfl,
        fun _ _ _ => ⟨_, rfl, rfl⟩⟩
      ⟨fun _ _ => (by decide : (0 : Int) < 20),
        fun _ _ => ⟨rfl, rfl, rfl, fun h => Option.noConfusion h⟩, fun _ _ _ => rfl,
        fun _ _ _ => ⟨_, rfl, rfl⟩⟩⟩

/-- C10: after a read of more than 0 bytes that parses completely,
`Listener_task` performs another read exactly when the flash signal
(`socket_started`) is not set, the JSON signal (`json_sent`) is set and
`Listener_process_json` returned 0; otherwise that read is the only one of
the run.  So the flash signal wins when both are set, and after a flash
probe or an HTTP dispatch no further read occurs, whatever the write or the
dispatch returned. -/
theorem Listener_task_continuation (BUFFER_SIZE : Nat) (env : Env) (l : Listener) (rest : List Env)
    (hread : (Listener_read BUFFER_SIZE env l).nread > 0)
    (hparse : (Listener_parse env (Listener_filled BUFFER_SIZE env l)).1 = 0) :
    (1 < (Listener_task BUFFER_SIZE l (env :: rest)).1.countP Event.isRead ↔
        ((Listener_parse env (Listener_filled BUFFER_SIZE env l)).2.1.parser.socket_started = false ∧
          (Listener_parse env (Listener_filled BUFFER_SIZE env l)).2.1.parser.json_sent = true ∧
          (Listener_process_json env
            (Listener_parse env (Listener_filled BUFFER_SIZE env l)).2.1).1 = 0)) ∧
      ((Listener_task BUFFER_SIZE l (env :: rest)).1.countP Event.isRead = 1 ↔
        ¬ ((Listener_parse env (Listener_filled BUFFER_SIZE env l)).2.1.parser.socket_started = false ∧
          (Listener_parse env (Listener_filled BUFFER_SIZE env l)).2.1.parser.json_sent = true ∧
          (Listener_process_json env
            (Listener_parse env (Listener_filled BUFFER_SIZE env l)).2.1).1 = 0)) ∧
      ((Listener_parse env (Listener_filled BUFFER_SIZE env l)).2.1.parser.socket_started = true →
        (Listener_task BUFFER_SIZE l (env :: rest)).1.countP Event.isRead = 1) ∧
      ((Listener_parse env (Listener_filled BUFFER_SIZE env l)).2.1.parser.socket_started = false →
        (Listener_parse env (Listener_filled BUFFER_SIZE env l)).2.1.parser.json_sent = false →
        (Listener_task BUFFER_SIZE l (env :: rest)).1.countP Event.isRead = 1) := by
  have hA := Listener_pass_again BUFFER_SIZE env l hread hparse
  have h1 := (Listener_pass_events BUFFER_SIZE env l).2.1
  have ht := (Listener_teardown_quiet (Listener_pass BUFFER_SIZE env l).listener).1
  have hr := Listener_task_reads BUFFER_SIZE (Listener_pass BUFFER_SIZE env l).listener rest
  have hcount : (Listener_task BUFFER_SIZE l (env :: rest)).1.countP Event.isRead =
      if (Listener_pass BUFFER_SIZE env l).again = true then
        1 + (Listener_task BUFFER_SIZE (Listener_pass BUFFER_SIZE env l).listener rest).1.countP Event.isRead
      else 1 := by
    simp only [Listener_task]
    split_ifs <;> simp only [List.countP_append, h1, ht]
  have hgt : 1 < (Listener_task BUFFER_SIZE l (env :: rest)).1.countP Event.isRead ↔
      (Listener_pass BUFFER_SIZE env l).again = true := by
    rw [hcount]
    by_cases h : (Listener_pass BUFFER_SIZE env l).again = true
    · rw [if_pos h]
      exact ⟨fun _ => h, fun _ => by omega⟩
    · rw [if_neg h]
      exact ⟨fun hlt => absurd hlt (by omega), fun hh => absurd hh h⟩
  have heq : (Listener_task BUFFER_SIZE l (env :: rest)).1.countP Event.isRead = 1 ↔
      ¬ (Listener_pass BUFFER_SIZE env l).again = true := by
    rw [hcount]
    by_cases h : (Listener_pass BUFFER_SIZE env l).again = true
    · rw [if_pos h]
      exact ⟨fun he => absurd he (by omega), fun hn => absurd h hn⟩
    · rw [if_neg h]
      exact ⟨fun _ => h, fun _ => rfl⟩
  refine ⟨hgt.trans hA, heq.trans (not_congr hA), ?_, ?_⟩
  · intro hf
    apply (heq.trans (not_congr hA)).mpr
    simp [hf]
  · intro _ hj
    apply (heq.trans (not_congr hA)).mpr
    simp [hj]

/-- C10, witness: a JSON message is followed by another read; a flash probe
with both signals raised is not. -/
theorem Listener_task_continuation_witness :
    1 < (Listener_task 2048 freshListener [jsonMsgEnv]).1.countP Event.isRead ∧
      (Listener_task 2048 freshListener [flashMsgEnv, jsonMsgEnv]).1.countP Event.isRead = 1 :=
  ⟨(Listener_task_continuation 2048 jsonMsgEnv freshListener [] (by decide) (by decide)).1.mpr
      ⟨by decide, by decide, by decide⟩,
   (Listener_task_continuation 2048 flashMsgEnv freshListener [jsonMsgEnv] (by decide)
      (by decide)).2.2.1 (by decide)⟩

end Mongrel2
